import Mathlib

/-!
Verification of the IPO short-term trading analysis engine
(`ipo_analyzer.py`): the suitability evaluator, the sell-timing
recommender and the suitable-stock selector, embedded shallowly.
Percentages (Python floats) are modelled as exact rationals; prices
(Python ints) as integers.  String templates follow the source with
plain number rendering in place of Python's float/thousands formatting.
-/

/-- 단타 적합성 상태 (suitability status, a closed two-value type). -/
inductive SuitabilityStatus where
  | SUITABLE
  | UNSUITABLE
deriving DecidableEq, Repr

/-- 공모주 정보 (IPO candidate record). `listing_date` is kept as a plain
year/month/day triple; it plays no role in the engine. -/
structure IPOStock where
  name : String
  listing_date : Nat × Nat × Nat
  ipo_price : Int
  price_band_min : Int
  price_band_max : Int
  mandatory_holding_pct : ℚ
  available_float_pct : ℚ
  sector : String
  sector_avg_return_pct : ℚ
  expected_return_pct : ℚ
  strengths : List String
  weaknesses : List String
deriving DecidableEq, Repr

/-- 단타 적합성 평가 결과 (evaluation result). -/
structure SuitabilityEvaluation where
  stock : IPOStock
  status : SuitabilityStatus
  reasons : List String
  warnings : List String
deriving DecidableEq, Repr

/-- 매도 타이밍 정보 (sell-timing recommendation). -/
structure SellTiming where
  stock_name : String
  dangerous_period : String
  safe_period : String
  reason : String
deriving DecidableEq, Repr

def MIN_MANDATORY_HOLDING : ℚ := 10
def MAX_AVAILABLE_FLOAT : ℚ := 35
def MIN_SECTOR_RETURN : ℚ := 5
def TARGET_MIN_RETURN : ℚ := 5
def TARGET_MAX_RETURN : ℚ := 30

/-- Reason string of rule 1 (mandatory holding below minimum). -/
def reason_rule1 (stock : IPOStock) : String :=
  "의무보유확약 " ++ toString stock.mandatory_holding_pct ++ "% (기준: "
    ++ toString MIN_MANDATORY_HOLDING ++ "% 이상)"

/-- Reason string of rule 2 (available float above maximum). -/
def reason_rule2 (stock : IPOStock) : String :=
  "유통가능물량 " ++ toString stock.available_float_pct ++ "% (기준: "
    ++ toString MAX_AVAILABLE_FLOAT ++ "% 이하)"

/-- Reason string of rule 3 (IPO price above the band maximum). -/
def reason_rule3 (stock : IPOStock) : String :=
  "공모가 " ++ toString stock.ipo_price ++ "원이 밴드 최상단 "
    ++ toString stock.price_band_max ++ "원 초과"

/-- Reason string of rule 4 (sector average return below minimum). -/
def reason_rule4 (stock : IPOStock) : String :=
  "유사 업종(" ++ stock.sector ++ ") 평균 수익률 "
    ++ toString stock.sector_avg_return_pct ++ "% (기준: "
    ++ toString MIN_SECTOR_RETURN ++ "% 이상)"

/-- Positive restatement of the mandatory-holding metric. -/
def positive_reason1 (stock : IPOStock) : String :=
  "의무보유확약 " ++ toString stock.mandatory_holding_pct ++ "% (우수)"

/-- Positive restatement of the available-float metric. -/
def positive_reason2 (stock : IPOStock) : String :=
  "유통가능물량 " ++ toString stock.available_float_pct ++ "% (양호)"

/-- Positive restatement of the sector-average-return metric. -/
def positive_reason3 (stock : IPOStock) : String :=
  "유사 업종 평균 수익률 " ++ toString stock.sector_avg_return_pct ++ "% (양호)"

/-- Positive restatement of the expected return against the target range. -/
def positive_reason4 (stock : IPOStock) : String :=
  "예상 수익률 " ++ toString stock.expected_return_pct ++ "% (목표 범위: "
    ++ toString TARGET_MIN_RETURN ++ "~" ++ toString TARGET_MAX_RETURN ++ "%)"

/-- Warning string for a somewhat high available float. -/
def warning_float (stock : IPOStock) : String :=
  "유통가능물량이 " ++ toString stock.available_float_pct
    ++ "%로 다소 높은 편이므로 주의 필요"

/-- Warning string for an IPO price above the band midpoint. -/
def warning_band : String :=
  "공모가가 희망 밴드 상단에 근접하여 변동성 증가 가능"

/-- Warning string for a high expected return. -/
def warning_expected (stock : IPOStock) : String :=
  "예상 수익률 " ++ toString stock.expected_return_pct
    ++ "%로 높아 변동성 클 수 있음"

/-- `IPOAnalyzer.evaluate_suitability`: the four rejection rules are run in
order, each independently flipping the status to UNSUITABLE and appending
its reason; a SUITABLE record instead gets four positive reasons and the
three advisory warnings. -/
def evaluate_suitability (stock : IPOStock) : SuitabilityEvaluation :=
  let st0 : SuitabilityStatus := SuitabilityStatus.SUITABLE
  let rs0 : List String := []
  let p1 :=
    if stock.mandatory_holding_pct < MIN_MANDATORY_HOLDING then
      (SuitabilityStatus.UNSUITABLE, rs0 ++ [reason_rule1 stock])
    else (st0, rs0)
  let p2 :=
    if stock.available_float_pct > MAX_AVAILABLE_FLOAT then
      (SuitabilityStatus.UNSUITABLE, p1.2 ++ [reason_rule2 stock])
    else p1
  let p3 :=
    if stock.ipo_price > stock.price_band_max then
      (SuitabilityStatus.UNSUITABLE, p2.2 ++ [reason_rule3 stock])
    else p2
  let p4 :=
    if stock.sector_avg_return_pct < MIN_SECTOR_RETURN then
      (SuitabilityStatus.UNSUITABLE, p3.2 ++ [reason_rule4 stock])
    else p3
  if p4.1 = SuitabilityStatus.SUITABLE then
    { stock := stock
      status := p4.1
      reasons := p4.2 ++ [positive_reason1 stock, positive_reason2 stock,
        positive_reason3 stock, positive_reason4 stock]
      warnings :=
        (if stock.available_float_pct > 30 then [warning_float stock] else []) ++
        (if (stock.ipo_price : ℚ) >
            ((stock.price_band_min : ℚ) + (stock.price_band_max : ℚ)) / 2 then
          [warning_band] else []) ++
        (if stock.expected_return_pct > 20 then [warning_expected stock] else []) }
  else
    { stock := stock, status := p4.1, reasons := p4.2, warnings := [] }

def strong_dangerous_period : String :=
  "14:30~15:20 (장 마감 전 차익실현 물량 출회 위험)"

def strong_safe_period : String :=
  "09:30~10:30 (초반 급등 후 첫 고점)"

/-- Justification string of the strong-demand tier. -/
def strong_reason (stock : IPOStock) : String :=
  "의무보유확약 " ++ toString stock.mandatory_holding_pct ++ "%로 높고 "
    ++ "유통가능물량 " ++ toString stock.available_float_pct
    ++ "%로 낮아 초반 수급 유리. "
    ++ "예상 수익률 " ++ toString stock.expected_return_pct
    ++ "% 달성 시 즉시 매도 권장."

def middle_dangerous_period : String :=
  "10:30~11:00, 14:00~15:20 (수급 약화 및 차익실현 구간)"

def middle_safe_period : String :=
  "09:15~09:45 (시초가 형성 직후)"

/-- Justification string of the middle-demand tier. -/
def middle_reason (stock : IPOStock) : String :=
  "중간 수준의 수급. 시초가 형성 직후 빠른 매도가 안전. "
    ++ "목표가 " ++ toString stock.expected_return_pct ++ "% 도달 시 분할 매도 권장."

def weak_dangerous_period : String :=
  "09:30 이후 전 구간 (수급 약화로 지속적 하락 위험)"

def weak_safe_period : String :=
  "09:00~09:20 (시초가 형성 즉시)"

/-- Justification string of the weak-demand tier. -/
def weak_reason (stock : IPOStock) : String :=
  "수급이 약해 조기 매도 필수. "
    ++ "시초가에서 " ++ toString stock.expected_return_pct ++ "% 이상 시 즉시 매도, "
    ++ "미달 시에도 손절 고려."

/-- The derived supply-demand strength scalar used by `get_sell_timing`. -/
def supply_strength (stock : IPOStock) : ℚ :=
  stock.mandatory_holding_pct - stock.available_float_pct / 2

/-- `IPOAnalyzer.get_sell_timing`: bucket `supply_strength` into three
tiers, first match on descending thresholds 15 and 5. -/
def get_sell_timing (stock : IPOStock) : SellTiming :=
  if supply_strength stock > 15 then
    { stock_name := stock.name
      dangerous_period := strong_dangerous_period
      safe_period := strong_safe_period
      reason := strong_reason stock }
  else if supply_strength stock > 5 then
    { stock_name := stock.name
      dangerous_period := middle_dangerous_period
      safe_period := middle_safe_period
      reason := middle_reason stock }
  else
    { stock_name := stock.name
      dangerous_period := weak_dangerous_period
      safe_period := weak_safe_period
      reason := weak_reason stock }

/-- One step of the stable descending insertion used to model Python's
stable `sorted(key=expected_return_pct, reverse=True)`: the new element
goes after every element with a strictly larger key and before every
element with a smaller-or-equal key. -/
def insert_desc (x : IPOStock) : List IPOStock → List IPOStock
  | [] => [x]
  | y :: ys =>
    if x.expected_return_pct < y.expected_return_pct then y :: insert_desc x ys
    else x :: y :: ys

/-- Stable descending sort by `expected_return_pct` (model of Python's
`sorted(..., reverse=True)`, which keeps ties in original order). -/
def sort_desc : List IPOStock → List IPOStock
  | [] => []
  | x :: xs => insert_desc x (sort_desc xs)

/-- Boolean suitability test of a single candidate. -/
def is_suitable (stock : IPOStock) : Bool :=
  decide ((evaluate_suitability stock).status = SuitabilityStatus.SUITABLE)

/-- `IPOAnalyzer.select_suitable_stocks`: keep the candidates the
evaluator marks SUITABLE, then sort by expected return descending. -/
def select_suitable_stocks (stocks : List IPOStock) : List IPOStock :=
  sort_desc (stocks.filter is_suitable)

/-- First sample candidate of `create_sample_ipo_data`. -/
def sample_tech : IPOStock :=
  { name := "테크이노베이션"
    listing_date := (2026, 1, 15)
    ipo_price := 25000
    price_band_min := 23000
    price_band_max := 27000
    mandatory_holding_pct := 15.5
    available_float_pct := 28.3
    sector := "반도체"
    sector_avg_return_pct := 12.8
    expected_return_pct := 18.5
    strengths := ["의무보유확약 15.5%로 높은 편", "반도체 업종 평균 수익률 12.8%로 우수",
      "공모가가 희망 밴드 중간 수준으로 적정", "최근 반도체 섹터 강세"]
    weaknesses := ["유통가능물량 28.3%로 다소 높은 편", "경쟁사 대비 기술력 검증 필요",
      "글로벌 반도체 수급 변동성 존재"] }

/-- Second sample candidate of `create_sample_ipo_data`. -/
def sample_bio : IPOStock :=
  { name := "바이오헬스케어"
    listing_date := (2026, 1, 22)
    ipo_price := 18000
    price_band_min := 15000
    price_band_max := 20000
    mandatory_holding_pct := 22.0
    available_float_pct := 18.5
    sector := "바이오"
    sector_avg_return_pct := 15.2
    expected_return_pct := 25.0
    strengths := ["의무보유확약 22%로 매우 높음", "유통가능물량 18.5%로 낮아 수급 유리",
      "바이오 섹터 최근 상승세", "신약 파이프라인 임상 3상 진행 중"]
    weaknesses := ["공모가가 밴드 상단에 근접", "임상 결과 불확실성", "바이오 업종 변동성 높음"] }

/-- Third sample candidate of `create_sample_ipo_data`. -/
def sample_green : IPOStock :=
  { name := "그린에너지솔루션"
    listing_date := (2026, 2, 5)
    ipo_price := 32000
    price_band_min := 28000
    price_band_max := 32000
    mandatory_holding_pct := 8.5
    available_float_pct := 42.0
    sector := "신재생에너지"
    sector_avg_return_pct := 6.5
    expected_return_pct := 8.0
    strengths := ["신재생에너지 정책 수혜 기대", "해외 수출 비중 높음"]
    weaknesses := ["의무보유확약 8.5%로 매우 낮음 (부적합)", "유통가능물량 42%로 과다 (부적합)",
      "공모가가 밴드 최상단 (부적합)", "원자재 가격 상승 리스크"] }

/-- Fourth sample candidate of `create_sample_ipo_data`. -/
def sample_ai : IPOStock :=
  { name := "AI로보틱스"
    listing_date := (2026, 2, 12)
    ipo_price := 45000
    price_band_min := 40000
    price_band_max := 50000
    mandatory_holding_pct := 18.0
    available_float_pct := 25.0
    sector := "AI/로봇"
    sector_avg_return_pct := 3.2
    expected_return_pct := 5.5
    strengths := ["의무보유확약 18%로 높음", "유통가능물량 25%로 적정",
      "AI 기술 경쟁력 보유", "대기업 협력 관계"]
    weaknesses := ["유사 업종 평균 수익률 3.2%로 낮음 (부적합)",
      "최근 AI 섹터 조정 국면", "수익성 개선 지연"] }

/-- Fifth sample candidate of `create_sample_ipo_data`. -/
def sample_mobility : IPOStock :=
  { name := "스마트모빌리티"
    listing_date := (2026, 2, 19)
    ipo_price := 22000
    price_band_min := 20000
    price_band_max := 24000
    mandatory_holding_pct := 12.5
    available_float_pct := 32.0
    sector := "전기차/모빌리티"
    sector_avg_return_pct := 9.5
    expected_return_pct := 12.0
    strengths := ["전기차 시장 성장세", "의무보유확약 12.5%로 기준 충족",
      "유통가능물량 32%로 기준 충족", "유사 업종 수익률 9.5%로 양호"]
    weaknesses := ["유통가능물량이 다소 높은 편", "경쟁 심화", "배터리 가격 변동 리스크"] }

/-- `create_sample_ipo_data`: the five hard-coded example candidates. -/
def create_sample_ipo_data : List IPOStock :=
  [sample_tech, sample_bio, sample_green, sample_ai, sample_mobility]

/-- Normal form of `evaluate_suitability`: status is UNSUITABLE exactly
when one of the four rules fires, the reasons are the fired rules'
strings in rule order (or the four positive restatements), and the
warnings are the fired advisory strings in source order (or empty). -/
theorem evaluate_suitability_def (stock : IPOStock) :
    evaluate_suitability stock =
      if stock.mandatory_holding_pct < MIN_MANDATORY_HOLDING ∨
         stock.available_float_pct > MAX_AVAILABLE_FLOAT ∨
         stock.ipo_price > stock.price_band_max ∨
         stock.sector_avg_return_pct < MIN_SECTOR_RETURN then
        { stock := stock, status := SuitabilityStatus.UNSUITABLE,
          reasons :=
            (if stock.mandatory_holding_pct < MIN_MANDATORY_HOLDING then
              [reason_rule1 stock] else []) ++
            (if stock.available_float_pct > MAX_AVAILABLE_FLOAT then
              [reason_rule2 stock] else []) ++
            (if stock.ipo_price > stock.price_band_max then
              [reason_rule3 stock] else []) ++
            (if stock.sector_avg_return_pct < MIN_SECTOR_RETURN then
              [reason_rule4 stock] else []),
          warnings := [] }
      else
        { stock := stock, status := SuitabilityStatus.SUITABLE,
          reasons := [positive_reason1 stock, positive_reason2 stock,
            positive_reason3 stock, positive_reason4 stock],
          warnings :=
            (if stock.available_float_pct > 30 then [warning_float stock] else []) ++
            (if (stock.ipo_price : ℚ) >
                ((stock.price_band_min : ℚ) + (stock.price_band_max : ℚ)) / 2 then
              [warning_band] else []) ++
            (if stock.expected_return_pct > 20 then [warning_expected stock] else []) } := by
  by_cases h1 : stock.mandatory_holding_pct < MIN_MANDATORY_HOLDING <;>
  by_cases h2 : stock.available_float_pct > MAX_AVAILABLE_FLOAT <;>
  by_cases h3 : stock.ipo_price > stock.price_band_max <;>
  by_cases h4 : stock.sector_avg_return_pct < MIN_SECTOR_RETURN <;>
  simp only [evaluate_suitability, h1, h2, h3, h4, if_true, if_false,
    ite_true, ite_false, List.nil_append, List.append_nil, or_true, or_false,
    true_or, false_or, or_self, not_true, not_false_iff] <;>
  rfl

theorem mem_insert_desc {x a : IPOStock} {l : List IPOStock} :
    a ∈ insert_desc x l ↔ a = x ∨ a ∈ l := by
  induction l with
  | nil => simp [insert_desc]
  | cons y ys ih =>
    simp only [insert_desc]
    split_ifs with h
    · simp only [List.mem_cons, ih]
      tauto
    · simp [List.mem_cons]

theorem insert_desc_perm (x : IPOStock) (l : List IPOStock) :
    List.Perm (insert_desc x l) (x :: l) := by
  induction l with
  | nil => simp [insert_desc]
  | cons y ys ih =>
    simp only [insert_desc]
    split_ifs with h
    · exact (ih.cons y).trans (List.Perm.swap x y ys)
    · exact List.Perm.refl _

theorem sort_desc_perm (l : List IPOStock) : List.Perm (sort_desc l) l := by
  induction l with
  | nil => simp [sort_desc]
  | cons x xs ih => exact (insert_desc_perm x (sort_desc xs)).trans (ih.cons x)

theorem pairwise_insert_desc {x : IPOStock} {l : List IPOStock}
    (h : l.Pairwise (fun a b => b.expected_return_pct ≤ a.expected_return_pct)) :
    (insert_desc x l).Pairwise
      (fun a b => b.expected_return_pct ≤ a.expected_return_pct) := by
  induction l with
  | nil => simp [insert_desc]
  | cons y ys ih =>
    rcases List.pairwise_cons.mp h with ⟨hy, hys⟩
    simp only [insert_desc]
    split_ifs with hlt
    · refine List.pairwise_cons.mpr ⟨?_, ih hys⟩
      intro z hz
      rcases mem_insert_desc.mp hz with rfl | hz
      · exact le_of_lt hlt
      · exact hy z hz
    · refine List.pairwise_cons.mpr ⟨?_, h⟩
      intro z hz
      rcases List.mem_cons.mp hz with rfl | hz
      · exact le_of_not_lt hlt
      · exact le_trans (hy z hz) (le_of_not_lt hlt)

theorem sort_desc_pairwise (l : List IPOStock) :
    (sort_desc l).Pairwise
      (fun a b => b.expected_return_pct ≤ a.expected_return_pct) := by
  induction l with
  | nil => simp [sort_desc]
  | cons x xs ih => exact pairwise_insert_desc ih

theorem filter_insert_desc (k : ℚ) (x : IPOStock) (l : List IPOStock) :
    (insert_desc x l).filter (fun s => decide (s.expected_return_pct = k)) =
      if x.expected_return_pct = k then
        x :: l.filter (fun s => decide (s.expected_return_pct = k))
      else l.filter (fun s => decide (s.expected_return_pct = k)) := by
  induction l with
  | nil => simp [insert_desc, List.filter_cons]
  | cons y ys ih =>
    simp only [insert_desc]
    by_cases hlt : x.expected_return_pct < y.expected_return_pct
    · rw [if_pos hlt]
      by_cases hx : x.expected_return_pct = k
      · have hy : ¬ y.expected_return_pct = k := by
          intro hk
          rw [hx, ← hk] at hlt
          exact lt_irrefl _ hlt
        simp [List.filter_cons, hx, hy, ih]
      · simp [List.filter_cons, ih, hx]
    · rw [if_neg hlt]
      by_cases hx : x.expected_return_pct = k <;> simp [List.filter_cons, hx]

theorem sort_desc_filter (k : ℚ) (l : List IPOStock) :
    (sort_desc l).filter (fun s => decide (s.expected_return_pct = k)) =
      l.filter (fun s => decide (s.expected_return_pct = k)) := by
  induction l with
  | nil => simp [sort_desc]
  | cons x xs ih =>
    simp only [sort_desc, filter_insert_desc, List.filter_cons, ih]
    by_cases hx : x.expected_return_pct = k <;> simp [hx]

/-- C1: `evaluate_suitability` returns UNSUITABLE iff at least one of the
four threshold rules fires, and SUITABLE iff all four checks pass. -/
theorem C1_status_iff_rules (stock : IPOStock) :
    ((evaluate_suitability stock).status = SuitabilityStatus.UNSUITABLE ↔
      (stock.mandatory_holding_pct < MIN_MANDATORY_HOLDING ∨
       stock.available_float_pct > MAX_AVAILABLE_FLOAT ∨
       stock.ipo_price > stock.price_band_max ∨
       stock.sector_avg_return_pct < MIN_SECTOR_RETURN)) ∧
    ((evaluate_suitability stock).status = SuitabilityStatus.SUITABLE ↔
      (MIN_MANDATORY_HOLDING ≤ stock.mandatory_holding_pct ∧
       stock.available_float_pct ≤ MAX_AVAILABLE_FLOAT ∧
       stock.ipo_price ≤ stock.price_band_max ∧
       MIN_SECTOR_RETURN ≤ stock.sector_avg_return_pct)) := by
  rw [evaluate_suitability_def]
  by_cases h : stock.mandatory_holding_pct < MIN_MANDATORY_HOLDING ∨
      stock.available_float_pct > MAX_AVAILABLE_FLOAT ∨
      stock.ipo_price > stock.price_band_max ∨
      stock.sector_avg_return_pct < MIN_SECTOR_RETURN
  · rw [if_pos h]
    refine ⟨iff_of_true rfl h, iff_of_false (fun hEq => SuitabilityStatus.noConfusion hEq) ?_⟩
    rintro ⟨a, b, c, d⟩
    rcases h with h | h | h | h
    · exact absurd h (not_lt.mpr a)
    · exact absurd h (not_lt.mpr b)
    · exact absurd h (not_lt.mpr c)
    · exact absurd h (not_lt.mpr d)
  · rw [if_neg h]
    push_neg at h
    obtain ⟨a, b, c, d⟩ := h
    refine ⟨iff_of_false (fun hEq => SuitabilityStatus.noConfusion hEq) ?_,
      iff_of_true rfl ⟨a, b, c, d⟩⟩
    push_neg
    exact ⟨a, b, c, d⟩

/-- C2: `select_suitable_stocks` keeps exactly the SUITABLE candidates
(its output is a permutation of the suitability filter of the input, so
no UNSUITABLE candidate appears), the output is sorted by
`expected_return_pct` descending, and the sort is stable: for every key,
the output's candidates with that key are exactly the filtered input's
candidates with that key, in their original order. -/
theorem C2_select_suitable_spec (stocks : List IPOStock) :
    (∀ s ∈ select_suitable_stocks stocks,
        (evaluate_suitability s).status = SuitabilityStatus.SUITABLE) ∧
    List.Perm (select_suitable_stocks stocks) (stocks.filter is_suitable) ∧
    (select_suitable_stocks stocks).Pairwise
        (fun a b => b.expected_return_pct ≤ a.expected_return_pct) ∧
    (∀ k : ℚ, (select_suitable_stocks stocks).filter
          (fun s => decide (s.expected_return_pct = k)) =
        (stocks.filter is_suitable).filter
          (fun s => decide (s.expected_return_pct = k))) := by
  refine ⟨?_, sort_desc_perm _, sort_desc_pairwise _, fun k => sort_desc_filter k _⟩
  intro s hs
  have hmem : s ∈ stocks.filter is_suitable :=
    (sort_desc_perm (stocks.filter is_suitable)).mem_iff.mp hs
  have hsuit := (List.mem_filter.mp hmem).2
  simpa [is_suitable] using hsuit

/-- C3: `get_sell_timing` is total, computes the strength scalar, and
dispatches on it by first match over descending thresholds into one of
three fixed tiers; the sample candidate with mandatory holding 22.0 and
float 18.5 has strength 12.75 and receives the middle tier. -/
theorem C3_sell_timing_tiers (stock : IPOStock) :
    supply_strength stock =
      stock.mandatory_holding_pct - stock.available_float_pct / 2 ∧
    (supply_strength stock > 15 →
      get_sell_timing stock =
        { stock_name := stock.name, dangerous_period := strong_dangerous_period,
          safe_period := strong_safe_period, reason := strong_reason stock }) ∧
    (supply_strength stock ≤ 15 → supply_strength stock > 5 →
      get_sell_timing stock =
        { stock_name := stock.name, dangerous_period := middle_dangerous_period,
          safe_period := middle_safe_period, reason := middle_reason stock }) ∧
    (supply_strength stock ≤ 5 →
      get_sell_timing stock =
        { stock_name := stock.name, dangerous_period := weak_dangerous_period,
          safe_period := weak_safe_period, reason := weak_reason stock }) ∧
    supply_strength sample_bio = 12.75 ∧
    get_sell_timing sample_bio =
      { stock_name := sample_bio.name, dangerous_period := middle_dangerous_period,
        safe_period := middle_safe_period, reason := middle_reason sample_bio } := by
  refine ⟨rfl, ?_, ?_, ?_, by with_unfolding_all rfl, by with_unfolding_all rfl⟩
  · intro h
    unfold get_sell_timing
    rw [if_pos h]
  · intro h15 h5
    unfold get_sell_timing
    rw [if_neg (not_lt.mpr h15), if_pos h5]
  · intro h5
    unfold get_sell_timing
    rw [if_neg (not_lt.mpr (le_trans h5 (by norm_num))), if_neg (not_lt.mpr h5)]

/-- C4: on an UNSUITABLE candidate the reasons are exactly the fired
rules' strings, one per violated rule (so their number equals the number
of violated rules), and the sample candidate with mandatory holding 8.5
and float 42.0 gets exactly the rule-1 and rule-2 reasons and no
warnings. -/
theorem C4_reasons_per_rule (stock : IPOStock)
    (h : (evaluate_suitability stock).status = SuitabilityStatus.UNSUITABLE) :
    (evaluate_suitability stock).reasons =
      (if stock.mandatory_holding_pct < MIN_MANDATORY_HOLDING then
        [reason_rule1 stock] else []) ++
      (if stock.available_float_pct > MAX_AVAILABLE_FLOAT then
        [reason_rule2 stock] else []) ++
      (if stock.ipo_price > stock.price_band_max then
        [reason_rule3 stock] else []) ++
      (if stock.sector_avg_return_pct < MIN_SECTOR_RETURN then
        [reason_rule4 stock] else []) ∧
    (evaluate_suitability stock).reasons.length =
      ((if stock.mandatory_holding_pct < MIN_MANDATORY_HOLDING then 1 else 0) +
       (if stock.available_float_pct > MAX_AVAILABLE_FLOAT then 1 else 0) +
       (if stock.ipo_price > stock.price_band_max then 1 else 0) +
       (if stock.sector_avg_return_pct < MIN_SECTOR_RETURN then 1 else 0)) ∧
    evaluate_suitability sample_green =
      { stock := sample_green, status := SuitabilityStatus.UNSUITABLE,
        reasons := [reason_rule1 sample_green, reason_rule2 sample_green],
        warnings := [] } := by
  by_cases hd : stock.mandatory_holding_pct < MIN_MANDATORY_HOLDING ∨
      stock.available_float_pct > MAX_AVAILABLE_FLOAT ∨
      stock.ipo_price > stock.price_band_max ∨
      stock.sector_avg_return_pct < MIN_SECTOR_RETURN
  · rw [evaluate_suitability_def, if_pos hd]
    refine ⟨rfl, ?_, by with_unfolding_all rfl⟩
    dsimp only
    split_ifs <;> rfl
  · rw [evaluate_suitability_def, if_neg hd] at h
    exact absurd h (fun hEq => SuitabilityStatus.noConfusion hEq)

/-- C5: the reasons list is never empty, and on a SUITABLE candidate it
is exactly the four positive restatements. -/
theorem C5_reasons_nonempty (stock : IPOStock) :
    (evaluate_suitability stock).reasons ≠ [] ∧
    ((evaluate_suitability stock).status = SuitabilityStatus.SUITABLE →
      (evaluate_suitability stock).reasons =
        [positive_reason1 stock, positive_reason2 stock,
         positive_reason3 stock, positive_reason4 stock]) := by
  rw [evaluate_suitability_def]
  by_cases hd : stock.mandatory_holding_pct < MIN_MANDATORY_HOLDING ∨
      stock.available_float_pct > MAX_AVAILABLE_FLOAT ∨
      stock.ipo_price > stock.price_band_max ∨
      stock.sector_avg_return_pct < MIN_SECTOR_RETURN
  · rw [if_pos hd]
    refine ⟨?_, fun hEq => absurd hEq (fun hEq => SuitabilityStatus.noConfusion hEq)⟩
    rcases hd with h | h | h | h <;> simp [h, List.append_eq_nil]
  · rw [if_neg hd]
    exact ⟨by simp, fun _ => rfl⟩

/-- C6: the warnings list is empty whenever the status is UNSUITABLE. -/
theorem C6_no_warnings_when_unsuitable (stock : IPOStock)
    (h : (evaluate_suitability stock).status = SuitabilityStatus.UNSUITABLE) :
    (evaluate_suitability stock).warnings = [] := by
  by_cases hd : stock.mandatory_holding_pct < MIN_MANDATORY_HOLDING ∨
      stock.available_float_pct > MAX_AVAILABLE_FLOAT ∨
      stock.ipo_price > stock.price_band_max ∨
      stock.sector_avg_return_pct < MIN_SECTOR_RETURN
  · rw [evaluate_suitability_def, if_pos hd]
  · rw [evaluate_suitability_def, if_neg hd] at h
    exact absurd h (fun hEq => SuitabilityStatus.noConfusion hEq)

/-- Boundary candidate: every one of the four metrics sits exactly on
its rule's threshold. -/
def boundary_stock : IPOStock :=
  { name := "경계값종목"
    listing_date := (2026, 3, 1)
    ipo_price := 1000
    price_band_min := 900
    price_band_max := 1000
    mandatory_holding_pct := 10
    available_float_pct := 35
    sector := "테스트"
    sector_avg_return_pct := 5
    expected_return_pct := 10
    strengths := []
    weaknesses := [] }

/-- Candidate whose supply strength is exactly 15. -/
def strength15_stock : IPOStock :=
  { name := "강도15종목"
    listing_date := (2026, 3, 2)
    ipo_price := 1000
    price_band_min := 900
    price_band_max := 1000
    mandatory_holding_pct := 20
    available_float_pct := 10
    sector := "테스트"
    sector_avg_return_pct := 5
    expected_return_pct := 10
    strengths := []
    weaknesses := [] }

/-- Candidate whose supply strength is exactly 5. -/
def strength5_stock : IPOStock :=
  { name := "강도5종목"
    listing_date := (2026, 3, 3)
    ipo_price := 1000
    price_band_min := 900
    price_band_max := 1000
    mandatory_holding_pct := 10
    available_float_pct := 10
    sector := "테스트"
    sector_avg_return_pct := 5
    expected_return_pct := 10
    strengths := []
    weaknesses := [] }

/-- Rank of the tier a recommendation belongs to (weak 0, middle 1,
strong 2), read off the recommendation's safe-period string. -/
def tier_rank (t : SellTiming) : Nat :=
  if t.safe_period = strong_safe_period then 2
  else if t.safe_period = middle_safe_period then 1
  else 0

theorem tier_rank_strong_mk (n d r : String) :
    tier_rank ⟨n, d, strong_safe_period, r⟩ = 2 := by
  simp [tier_rank]

theorem tier_rank_middle_mk (n d r : String) :
    tier_rank ⟨n, d, middle_safe_period, r⟩ = 1 := by
  have h : middle_safe_period ≠ strong_safe_period := by decide
  simp [tier_rank, h]

theorem tier_rank_weak_mk (n d r : String) :
    tier_rank ⟨n, d, weak_safe_period, r⟩ = 0 := by
  have h1 : weak_safe_period ≠ strong_safe_period := by decide
  have h2 : weak_safe_period ≠ middle_safe_period := by decide
  simp [tier_rank, h1, h2]

theorem ite_singleton_append_sublist {α : Type} (c : Prop) [Decidable c] (a : α)
    {l l' : List α} (h : l.Sublist l') :
    ((if c then [a] else []) ++ l).Sublist (a :: l') := by
  split_ifs
  · simpa using List.Sublist.cons₂ a h
  · exact List.Sublist.cons a h

theorem sublist_of_four_ites {α : Type} (c1 c2 c3 c4 : Prop)
    [Decidable c1] [Decidable c2] [Decidable c3] [Decidable c4]
    (a1 a2 a3 a4 : α) :
    ((if c1 then [a1] else []) ++ (if c2 then [a2] else []) ++
      (if c3 then [a3] else []) ++ (if c4 then [a4] else [])).Sublist
      [a1, a2, a3, a4] := by
  rw [List.append_assoc, List.append_assoc]
  refine ite_singleton_append_sublist _ _ ?_
  refine ite_singleton_append_sublist _ _ ?_
  refine ite_singleton_append_sublist _ _ ?_
  split_ifs
  · exact List.Sublist.refl _
  · exact List.nil_sublist _

theorem sublist_of_three_ites {α : Type} (c1 c2 c3 : Prop)
    [Decidable c1] [Decidable c2] [Decidable c3] (a1 a2 a3 : α) :
    ((if c1 then [a1] else []) ++ (if c2 then [a2] else []) ++
      (if c3 then [a3] else [])).Sublist [a1, a2, a3] := by
  rw [List.append_assoc]
  refine ite_singleton_append_sublist _ _ ?_
  refine ite_singleton_append_sublist _ _ ?_
  split_ifs
  · exact List.Sublist.refl _
  · exact List.nil_sublist _

/-- C7: for a SUITABLE candidate the three warning conditions are
evaluated independently and contribute their strings; a candidate with
float in the warn-but-pass dead zone (30, 35] that passes the other
rules is SUITABLE and carries the float warning. -/
theorem C7_warning_conditions (stock : IPOStock) :
    ((evaluate_suitability stock).status = SuitabilityStatus.SUITABLE →
      (evaluate_suitability stock).warnings =
        (if stock.available_float_pct > 30 then [warning_float stock] else []) ++
        (if (stock.ipo_price : ℚ) >
            ((stock.price_band_min : ℚ) + (stock.price_band_max : ℚ)) / 2 then
          [warning_band] else []) ++
        (if stock.expected_return_pct > 20 then
          [warning_expected stock] else [])) ∧
    (30 < stock.available_float_pct → stock.available_float_pct ≤ 35 →
     MIN_MANDATORY_HOLDING ≤ stock.mandatory_holding_pct →
     stock.ipo_price ≤ stock.price_band_max →
     MIN_SECTOR_RETURN ≤ stock.sector_avg_return_pct →
      (evaluate_suitability stock).status = SuitabilityStatus.SUITABLE ∧
      warning_float stock ∈ (evaluate_suitability stock).warnings) := by
  rw [evaluate_suitability_def]
  by_cases hd : stock.mandatory_holding_pct < MIN_MANDATORY_HOLDING ∨
      stock.available_float_pct > MAX_AVAILABLE_FLOAT ∨
      stock.ipo_price > stock.price_band_max ∨
      stock.sector_avg_return_pct < MIN_SECTOR_RETURN
  · rw [if_pos hd]
    refine ⟨fun hEq => absurd hEq (fun hEq => SuitabilityStatus.noConfusion hEq),
      fun h30 h35 hm hp hs => ?_⟩
    rcases hd with h | h | h | h
    · exact absurd h (not_lt.mpr hm)
    · exact absurd h (not_lt.mpr h35)
    · exact absurd h (not_lt.mpr hp)
    · exact absurd h (not_lt.mpr hs)
  · rw [if_neg hd]
    refine ⟨fun _ => rfl, fun h30 h35 hm hp hs => ⟨rfl, ?_⟩⟩
    dsimp only
    rw [if_pos h30]
    simp

/-- C8: every threshold and tier comparison is strict at the boundary:
a candidate sitting exactly on all four thresholds is SUITABLE, strength
exactly 15 falls to the middle tier and strength exactly 5 to the weak
tier. -/
theorem C8_strict_boundaries :
    boundary_stock.mandatory_holding_pct = MIN_MANDATORY_HOLDING ∧
    boundary_stock.available_float_pct = MAX_AVAILABLE_FLOAT ∧
    boundary_stock.ipo_price = boundary_stock.price_band_max ∧
    boundary_stock.sector_avg_return_pct = MIN_SECTOR_RETURN ∧
    (evaluate_suitability boundary_stock).status = SuitabilityStatus.SUITABLE ∧
    supply_strength strength15_stock = 15 ∧
    (get_sell_timing strength15_stock).safe_period = middle_safe_period ∧
    (get_sell_timing strength15_stock).dangerous_period = middle_dangerous_period ∧
    supply_strength strength5_stock = 5 ∧
    (get_sell_timing strength5_stock).safe_period = weak_safe_period ∧
    (get_sell_timing strength5_stock).dangerous_period = weak_dangerous_period :=
  ⟨by with_unfolding_all rfl, by with_unfolding_all rfl, by with_unfolding_all rfl,
    by with_unfolding_all rfl, by with_unfolding_all rfl, by with_unfolding_all rfl,
    by with_unfolding_all rfl, by with_unfolding_all rfl, by with_unfolding_all rfl,
    by with_unfolding_all rfl, by with_unfolding_all rfl⟩

/-- C9: the tier assigned by `get_sell_timing` is monotone in mandatory
holding when the available float is fixed (weak 0 < middle 1 < strong 2
never decreases). -/
theorem C9_tier_monotone (c1 c2 : IPOStock)
    (hf : c1.available_float_pct = c2.available_float_pct)
    (hm : c1.mandatory_holding_pct ≤ c2.mandatory_holding_pct) :
    tier_rank (get_sell_timing c1) ≤ tier_rank (get_sell_timing c2) := by
  have hs : supply_strength c1 ≤ supply_strength c2 := by
    unfold supply_strength
    rw [hf]
    linarith
  unfold get_sell_timing
  by_cases h1 : supply_strength c1 > 15
  · rw [if_pos h1, if_pos (lt_of_lt_of_le h1 hs)]
    simp [tier_rank_strong_mk]
  · rw [if_neg h1]
    by_cases h1b : supply_strength c1 > 5
    · rw [if_pos h1b]
      by_cases h2 : supply_strength c2 > 15
      · rw [if_pos h2]
        simp [tier_rank_strong_mk, tier_rank_middle_mk]
      · rw [if_neg h2, if_pos (lt_of_lt_of_le h1b hs)]
        simp [tier_rank_middle_mk]
    · rw [if_neg h1b]
      by_cases h2 : supply_strength c2 > 15
      · rw [if_pos h2]
        simp [tier_rank_strong_mk, tier_rank_weak_mk]
      · rw [if_neg h2]
        by_cases h2b : supply_strength c2 > 5
        · rw [if_pos h2b]
          simp [tier_rank_middle_mk, tier_rank_weak_mk]
        · rw [if_neg h2b]
          simp [tier_rank_weak_mk]

/-- C10: reasons appear in the fixed rule order 1-2-3-4 when UNSUITABLE
(as a sublist of the full rule-reason list), warnings appear in the
fixed order float/band/expected-return when SUITABLE, and the warnings
list never exceeds three entries. -/
theorem C10_fixed_order (stock : IPOStock) :
    ((evaluate_suitability stock).status = SuitabilityStatus.UNSUITABLE →
      (evaluate_suitability stock).reasons.Sublist
        [reason_rule1 stock, reason_rule2 stock,
         reason_rule3 stock, reason_rule4 stock]) ∧
    ((evaluate_suitability stock).status = SuitabilityStatus.SUITABLE →
      (evaluate_suitability stock).warnings.Sublist
        [warning_float stock, warning_band, warning_expected stock]) ∧
    (evaluate_suitability stock).warnings.length ≤ 3 := by
  rw [evaluate_suitability_def]
  by_cases hd : stock.mandatory_holding_pct < MIN_MANDATORY_HOLDING ∨
      stock.available_float_pct > MAX_AVAILABLE_FLOAT ∨
      stock.ipo_price > stock.price_band_max ∨
      stock.sector_avg_return_pct < MIN_SECTOR_RETURN
  · rw [if_pos hd]
    exact ⟨fun _ => sublist_of_four_ites _ _ _ _ _ _ _ _,
      fun hEq => absurd hEq (fun hEq => SuitabilityStatus.noConfusion hEq),
      by simp⟩
  · rw [if_neg hd]
    refine ⟨fun hEq => absurd hEq
      (fun hEq => SuitabilityStatus.noConfusion hEq),
      fun _ => sublist_of_three_ites _ _ _ _ _ _, ?_⟩
    have hlen := List.Sublist.length_le (sublist_of_three_ites
      (stock.available_float_pct > 30)
      ((stock.ipo_price : ℚ) >
        ((stock.price_band_min : ℚ) + (stock.price_band_max : ℚ)) / 2)
      (stock.expected_return_pct > 20)
      (warning_float stock) warning_band (warning_expected stock))
    simpa using hlen

/-- Witness for C2: the sample-data selection contains 바이오헬스케어 and
it is indeed SUITABLE. -/
theorem C2_select_witness :
    sample_bio ∈ select_suitable_stocks create_sample_ipo_data ∧
    (evaluate_suitability sample_bio).status = SuitabilityStatus.SUITABLE :=
  have hsel : select_suitable_stocks create_sample_ipo_data =
      [sample_bio, sample_tech, sample_mobility] := by with_unfolding_all rfl
  have hmem : sample_bio ∈ select_suitable_stocks create_sample_ipo_data := by
    rw [hsel]
    exact List.mem_cons_self _ _
  ⟨hmem, (C2_select_suitable_spec create_sample_ipo_data).1 sample_bio hmem⟩

/-- Witness for C3: 바이오헬스케어 has strength 12.75, between 5 and 15,
and receives the middle-tier recommendation. -/
theorem C3_sell_timing_witness :
    supply_strength sample_bio ≤ 15 ∧ supply_strength sample_bio > 5 ∧
    get_sell_timing sample_bio =
      { stock_name := sample_bio.name, dangerous_period := middle_dangerous_period,
        safe_period := middle_safe_period, reason := middle_reason sample_bio } :=
  have h15 : supply_strength sample_bio ≤ 15 :=
    of_decide_eq_true (by with_unfolding_all rfl)
  have h5 : supply_strength sample_bio > 5 :=
    of_decide_eq_true (by with_unfolding_all rfl)
  ⟨h15, h5, (C3_sell_timing_tiers sample_bio).2.2.1 h15 h5⟩

/-- Witness for C4: 그린에너지솔루션 is UNSUITABLE and its evaluation is
exactly the rule-1 and rule-2 reasons with no warnings. -/
theorem C4_reasons_witness :
    (evaluate_suitability sample_green).status = SuitabilityStatus.UNSUITABLE ∧
    evaluate_suitability sample_green =
      { stock := sample_green, status := SuitabilityStatus.UNSUITABLE,
        reasons := [reason_rule1 sample_green, reason_rule2 sample_green],
        warnings := [] } :=
  have h : (evaluate_suitability sample_green).status =
      SuitabilityStatus.UNSUITABLE := by with_unfolding_all rfl
  ⟨h, (C4_reasons_per_rule sample_green h).2.2⟩

/-- Witness for C5: 바이오헬스케어 is SUITABLE and its reasons are the
four positive restatements. -/
theorem C5_reasons_witness :
    (evaluate_suitability sample_bio).status = SuitabilityStatus.SUITABLE ∧
    (evaluate_suitability sample_bio).reasons =
      [positive_reason1 sample_bio, positive_reason2 sample_bio,
       positive_reason3 sample_bio, positive_reason4 sample_bio] :=
  have h : (evaluate_suitability sample_bio).status =
      SuitabilityStatus.SUITABLE := by with_unfolding_all rfl
  ⟨h, (C5_reasons_nonempty sample_bio).2 h⟩

/-- Witness for C6: 그린에너지솔루션 is UNSUITABLE and carries no
warnings. -/
theorem C6_warnings_witness :
    (evaluate_suitability sample_green).status = SuitabilityStatus.UNSUITABLE ∧
    (evaluate_suitability sample_green).warnings = [] :=
  have h : (evaluate_suitability sample_green).status =
      SuitabilityStatus.UNSUITABLE := by with_unfolding_all rfl
  ⟨h, C6_no_warnings_when_unsuitable sample_green h⟩

/-- Witness for C7: 스마트모빌리티 sits in the (30, 35] float dead zone,
passes the other rules, is SUITABLE and carries the float warning. -/
theorem C7_dead_zone_witness :
    30 < sample_mobility.available_float_pct ∧
    sample_mobility.available_float_pct ≤ 35 ∧
    MIN_MANDATORY_HOLDING ≤ sample_mobility.mandatory_holding_pct ∧
    sample_mobility.ipo_price ≤ sample_mobility.price_band_max ∧
    MIN_SECTOR_RETURN ≤ sample_mobility.sector_avg_return_pct ∧
    ((evaluate_suitability sample_mobility).status = SuitabilityStatus.SUITABLE ∧
      warning_float sample_mobility ∈ (evaluate_suitability sample_mobility).warnings) :=
  have h1 : 30 < sample_mobility.available_float_pct :=
    of_decide_eq_true (by with_unfolding_all rfl)
  have h2 : sample_mobility.available_float_pct ≤ 35 :=
    of_decide_eq_true (by with_unfolding_all rfl)
  have h3 : MIN_MANDATORY_HOLDING ≤ sample_mobility.mandatory_holding_pct :=
    of_decide_eq_true (by with_unfolding_all rfl)
  have h4 : sample_mobility.ipo_price ≤ sample_mobility.price_band_max :=
    of_decide_eq_true (by with_unfolding_all rfl)
  have h5 : MIN_SECTOR_RETURN ≤ sample_mobility.sector_avg_return_pct :=
    of_decide_eq_true (by with_unfolding_all rfl)
  ⟨h1, h2, h3, h4, h5,
    (C7_warning_conditions sample_mobility).2 h1 h2 h3 h4 h5⟩

/-- Witness for C9: with equal float 10, raising mandatory holding from
10 (weak tier) to 20 (middle tier) does not weaken the tier. -/
theorem C9_tier_monotone_witness :
    strength5_stock.available_float_pct = strength15_stock.available_float_pct ∧
    strength5_stock.mandatory_holding_pct ≤ strength15_stock.mandatory_holding_pct ∧
    tier_rank (get_sell_timing strength5_stock) ≤
      tier_rank (get_sell_timing strength15_stock) :=
  have hf : strength5_stock.available_float_pct =
      strength15_stock.available_float_pct := by with_unfolding_all rfl
  have hm : strength5_stock.mandatory_holding_pct ≤
      strength15_stock.mandatory_holding_pct :=
    of_decide_eq_true (by with_unfolding_all rfl)
  ⟨hf, hm, C9_tier_monotone strength5_stock strength15_stock hf hm⟩

/-- Witness for C10: the UNSUITABLE candidate 그린에너지솔루션's reasons
are a sublist of the rule-ordered reason list. -/
theorem C10_fixed_order_witness :
    (evaluate_suitability sample_green).status = SuitabilityStatus.UNSUITABLE ∧
    (evaluate_suitability sample_green).reasons.Sublist
      [reason_rule1 sample_green, reason_rule2 sample_green,
       reason_rule3 sample_green, reason_rule4 sample_green] :=
  have h : (evaluate_suitability sample_green).status =
      SuitabilityStatus.UNSUITABLE := by with_unfolding_all rfl
  ⟨h, (C10_fixed_order sample_green).1 h⟩

/-- Witness for C1: the all-boundaries candidate passes all four checks
and is SUITABLE. -/
theorem C1_status_witness :
    (MIN_MANDATORY_HOLDING ≤ boundary_stock.mandatory_holding_pct ∧
     boundary_stock.available_float_pct ≤ MAX_AVAILABLE_FLOAT ∧
     boundary_stock.ipo_price ≤ boundary_stock.price_band_max ∧
     MIN_SECTOR_RETURN ≤ boundary_stock.sector_avg_return_pct) ∧
    (evaluate_suitability boundary_stock).status = SuitabilityStatus.SUITABLE :=
  have hc : MIN_MANDATORY_HOLDING ≤ boundary_stock.mandatory_holding_pct ∧
      boundary_stock.available_float_pct ≤ MAX_AVAILABLE_FLOAT ∧
      boundary_stock.ipo_price ≤ boundary_stock.price_band_max ∧
      MIN_SECTOR_RETURN ≤ boundary_stock.sector_avg_return_pct :=
    ⟨of_decide_eq_true (by with_unfolding_all rfl),
     of_decide_eq_true (by with_unfolding_all rfl),
     of_decide_eq_true (by with_unfolding_all rfl),
     of_decide_eq_true (by with_unfolding_all rfl)⟩
  ⟨hc, (C1_status_iff_rules boundary_stock).2.mpr hc⟩
